import Mathlib

/-!
Shallow embedding of `src/app.py` (the "AffordableHousing Boost API" worker).

The worker `selenium_boost_worker` drives a browser through an external
Selenium session.  All interactions with the outside world (binary
detection, driver creation, login waits, page heights, JS polling counts,
per-button text/class snapshots, address-resolution lookups, click
outcomes, screenshot captures) are modelled as fields of a `WorkerEnv`
record; the worker itself is translated statement by statement from the
Python source into a pure function over that record.

Python-specific primitives (`.lower()`, `str.split()`, the `in` substring
test, `x or default` truthiness) are given their own small definitions so
that the translation stays line-for-line faithful.
-/

set_option autoImplicit false
set_option linter.unusedVariables false

namespace Boost

instance exceptDecEq {ε α : Type} [DecidableEq ε] [DecidableEq α] : DecidableEq (Except ε α)
  | .error e, .error f =>
    if h : e = f then .isTrue (congrArg Except.error h)
    else .isFalse (fun hh => h (Except.error.inj hh))
  | .error _, .ok _ => .isFalse (fun hh => Except.noConfusion hh)
  | .ok _, .error _ => .isFalse (fun hh => Except.noConfusion hh)
  | .ok x, .ok y =>
    if h : x = y then .isTrue (congrArg Except.ok h)
    else .isFalse (fun hh => h (Except.ok.inj hh))

/-- Python's `needle in hay` substring test, over explicit character lists. -/
def listContainsSub : List Char → List Char → Bool
  | [], needle => needle.isEmpty
  | h :: t, needle => needle.isPrefixOf (h :: t) || listContainsSub t needle

/-- Python's `needle in hay` substring test on strings. -/
def strContains (hay needle : String) : Bool :=
  listContainsSub hay.data needle.data

/-- Python's `str.lower()` (ASCII case folding suffices for this code). -/
def pyLower (s : String) : String :=
  String.mk (s.data.map Char.toLower)

/-- Python truthiness of an optional string: `None` and `""` are falsy. -/
def pyTruthy : Option String → Bool
  | none => false
  | some s => !(s == "")

/-- Python's `x or d` over an optional string, with truthiness semantics. -/
def orDefault (o : Option String) (d : String) : String :=
  match o with
  | none => d
  | some s => if s == "" then d else s

/-- Python's `str(bool)` rendering used in f-strings. -/
def pyBool (b : Bool) : String :=
  if b then "True" else "False"

/-- Python's `str.strip()`: drop leading and trailing whitespace. -/
def pyStrip (s : String) : String :=
  String.mk (((s.data.dropWhile Char.isWhitespace).reverse.dropWhile Char.isWhitespace).reverse)

/-- Accumulator pass for Python's `str.split()`: split on whitespace runs. -/
def wordsAux : List Char → List Char → List String
  | [], acc => if acc.isEmpty then [] else [String.mk acc.reverse]
  | c :: t, acc =>
    if c.isWhitespace then
      if acc.isEmpty then wordsAux t [] else String.mk acc.reverse :: wordsAux t []
    else
      wordsAux t (c :: acc)

/-- Python's `s.split()` with no separator: whitespace runs, no empty parts. -/
def pySplitWs (s : String) : List String :=
  wordsAux s.data []

/-- Whitespace-normalized text, as computed at app.py line 300. -/
def normWs (s : String) : String :=
  String.intercalate " " (pySplitWs s)

/--
Outcome of one address-resolution strategy in `find_address_for_button`
(app.py lines 141-178).  `Except.error ()` models the `find_element`
call raising (no matching node); `Except.ok s` models a found node whose
extracted text is `s` (possibly empty, since `get_element_text_via_js`
returns `""` on failure).
-/
structure AddrObs where
  anc1 : Except Unit String
  anc2 : Except Unit String
  anc3 : Except Unit String
  prec : Except Unit String
  deriving DecidableEq

/-- One fallback step: on a raised lookup or an empty text, fall through. -/
def tryStrategy (r : Except Unit String) (k : Option String) : Option String :=
  match r with
  | .error _ => k
  | .ok s => if s == "" then k else some s

/--
`find_address_for_button` from app.py lines 141-178: the ordered fallback
chain (listing--card ancestor, listing--item ancestor,
listing--property--wrapper ancestor, preceding address element), first
non-empty text wins, otherwise `none`.  Every strategy body is wrapped in
`try/except` in the source, so the function is total and never raises.
-/
def find_address_for_button (a : AddrObs) : Option String :=
  tryStrategy a.anc1 (tryStrategy a.anc2 (tryStrategy a.anc3 (tryStrategy a.prec none)))

/--
Snapshot of one candidate button as observed through the driver:
the raw JS `innerText` result (app.py lines 131-138; `none` models a JS
exception or null result, which the helper converts to `""`), the
`get_attribute("class")` result (`Except.error msg` models the call
raising, caught at app.py line 309), the address-resolution observations,
and the outcomes of the two `execute_script` calls in the click loop
(app.py lines 328 and 330), whose error payload is the exception text.
-/
structure ButtonObs where
  jsText : Option String
  getAttrClass : Except String (Option String)
  addrObs : AddrObs
  scrollRes : Except String Unit
  clickRes : Except String Unit
  deriving DecidableEq

/-- `get_element_text_via_js` (app.py lines 131-138): `(txt or "").strip()`. -/
def get_element_text_via_js (b : ButtonObs) : String :=
  pyStrip (orDefault b.jsText "")

/-- `norm` as computed at app.py lines 299-300: lowercase then normalize. -/
def normText (b : ButtonObs) : String :=
  normWs (pyLower (get_element_text_via_js b))

/-- `in_progress` as computed at app.py line 302. -/
def inProgressFlag (norm classes : String) : Bool :=
  strContains classes "usage-boost-inprogress" || strContains norm "progress" ||
    strContains norm "inprogress"

/-- The eligibility test at app.py line 303: `("boost" in norm) and not in_progress`. -/
def isEligible (norm classes : String) : Bool :=
  strContains norm "boost" && !(inProgressFlag norm classes)

/-- A `boostable` entry `(address, btn, norm)` as built at app.py line 305. -/
abbrev Candidate := Option String × ButtonObs × String

/-- The `[FOUND]` log line of app.py line 306. -/
def foundLine (idx : Nat) (norm : String) (address : Option String) : String :=
  "[FOUND] btn#" ++ toString idx ++ " text=\x27" ++ norm ++ "\x27 addr=\x27" ++
    orDefault address "<none>" ++ "\x27"

/-- The `[SKIP]` log line of app.py line 308. -/
def skipLine (idx : Nat) (norm classes : String) (ip : Bool) : String :=
  "[SKIP] btn#" ++ toString idx ++ " text=\x27" ++ norm.take 60 ++ "\x27 class=\x27" ++
    classes.take 80 ++ "\x27 in_progress=" ++ pyBool ip

/-- The `[WARN]` log line of app.py line 310. -/
def warnLine (idx : Nat) (e : String) : String :=
  "[WARN] error inspecting btn#" ++ toString idx ++ ": " ++ e

/-- Output of the candidate-filter loop: the `boostable` list and its log lines. -/
structure FilterOut where
  boostable : List Candidate
  logs : List String

/--
The filter loop of app.py lines 296-311 (`enumerate(buttons, start=1)`):
classify each button, resolve an address for eligible ones, log every case,
and skip (with a `[WARN]` log) any button whose inspection raised.
-/
def filterLoop : List ButtonObs → Nat → FilterOut
  | [], _ => ⟨[], []⟩
  | b :: rest, idx =>
    let r := filterLoop rest (idx + 1)
    let norm := normText b
    match b.getAttrClass with
    | .error e => ⟨r.boostable, warnLine idx e :: r.logs⟩
    | .ok co =>
      let classes := pyLower (orDefault co "")
      if isEligible norm classes then
        let address := find_address_for_button b.addrObs
        ⟨(address, b, norm) :: r.boostable, foundLine idx norm address :: r.logs⟩
      else
        ⟨r.boostable, skipLine idx norm classes (inProgressFlag norm classes) :: r.logs⟩

/-- The error log line of app.py line 336 for a failed click attempt `i` (0-based). -/
def clickErrLine (i : Nat) (address : Option String) (ce : String) : String :=
  "Error clicking boost #" ++ toString (i + 1) ++ " (" ++ orDefault address "unknown" ++
    "): " ++ ce

/-- The success log line of app.py line 333. -/
def clickSuccessLine (address : Option String) (text : String) : String :=
  "Clicked boost for: " ++ orDefault address "<address not found>" ++
    " (text=\x27" ++ text ++ "\x27)"

/-- Output of the click loop: `clicked`, `clicked_addresses`, and its log lines. -/
structure ClickOut where
  clicked : Nat
  addrs : List (Option String)
  logs : List String

/--
The click loop of app.py lines 325-337: for each candidate in order,
scroll into view then click via script; on either call raising, log the
error and continue; on success increment `clicked` and append the address.
-/
def clickLoop : List Candidate → Nat → ClickOut
  | [], _ => ⟨0, [], []⟩
  | t :: rest, i =>
    let r := clickLoop rest (i + 1)
    match t.2.1.scrollRes with
    | .error ce => ⟨r.clicked, r.addrs, clickErrLine i t.1 ce :: r.logs⟩
    | .ok _ =>
      match t.2.1.clickRes with
      | .error ce => ⟨r.clicked, r.addrs, clickErrLine i t.1 ce :: r.logs⟩
      | .ok _ => ⟨r.clicked + 1, t.1 :: r.addrs, clickSuccessLine t.1 t.2.2 :: r.logs⟩

/-- The first failure among the two script calls of one click attempt, if any. -/
def attemptErr (b : ButtonObs) : Option String :=
  match b.scrollRes with
  | .error e => some e
  | .ok _ =>
    match b.clickRes with
    | .error e => some e
    | .ok _ => none

/-- Whether one click attempt fully succeeds (both script calls return). -/
def attemptOk (t : Candidate) : Bool :=
  (attemptErr t.2.1).isNone

/-- One `[JS POLL]` log line (app.py line 275). -/
def pollLogLine (b c a : Nat) : String :=
  "[JS POLL] buttons=" ++ toString b ++ ", cards=" ++ toString c ++
    ", addresses=" ++ toString a

/-- Output of the existence-polling loop: its log lines and the found count. -/
structure PollOut where
  logs : List String
  found : Option Nat

/--
The JS existence-polling loop of app.py lines 265-280.  The wall-clock
bound becomes the length of the observation list: each entry is the triple
of selector counts seen on one iteration; the loop stops at the first
iteration with any nonzero count, recording `max` of the three counts.
-/
def pollLoop : List (Nat × Nat × Nat) → PollOut
  | [] => ⟨[], none⟩
  | t :: rest =>
    let l := pollLogLine t.1 t.2.1 t.2.2
    if t.1 > 0 || t.2.1 > 0 || t.2.2 > 0 then
      ⟨[l], some (max t.1 (max t.2.1 t.2.2))⟩
    else
      let r := pollLoop rest
      ⟨l :: r.logs, r.found⟩

/--
Iteration count of the incremental scroll loop (app.py lines 251-262):
`heights k` is the document height after `k` scrolls (`heights 0` the
initial height); the loop stops when the height stops growing or after
`DEFAULT_MAX_SCROLL_LOOPS = 60` iterations.
-/
def scrollGo (heights : Nat → Nat) (loops last fuel : Nat) : Nat :=
  match fuel with
  | 0 => loops
  | fuel + 1 =>
    let new := heights (loops + 1)
    if new == last then loops + 1 else scrollGo heights (loops + 1) new fuel

/-- Total loop count of the scroll loop, used only in its log line. -/
def scrollLoopCount (heights : Nat → Nat) : Nat :=
  scrollGo heights 0 (heights 0) 60

/--
Environment of one worker run: every external observation the Python code
can make, in program order.  `createErr` models `webdriver.Chrome` raising;
`loginFail = some (k, msg)` models the `(k+1)`-st login-flow call raising
with message `msg` after `k` completed steps; `navErr` models
`driver.get(listing_url)` raising; `screenshotRes` models
`get_screenshot_as_base64` (same observation at every capture site);
`tb` is the `traceback.format_exc()` text.
-/
structure WorkerEnv where
  chromeBin : Option String
  chromedriverBin : Option String
  createErr : Option String
  loginFail : Option (Nat × String)
  navErr : Option String
  heights : Nat → Nat
  polls : List (Nat × Nat × Nat)
  screenshotRes : Except Unit String
  buttons : List ButtonObs
  tb : String

/-- The `BoostResponse` pydantic model (app.py lines 46-52). -/
structure BoostResponse where
  success : Bool
  clicked_count : Nat
  clicked_addresses : List (Option String)
  debug_logs : List String
  error : Option String
  screenshot_base64 : Option String

/-- Mutable state visible to the `except` and `finally` blocks. -/
structure TrySt where
  logs : List String
  shot : Option String
  driver : Bool

/-- Payload of a raised exception leaving the `try` block. -/
structure ErrOut where
  msg : String
  st : TrySt

/-- Payload of the normal-return path of the `try` block. -/
structure OkOut where
  clicked : Nat
  addrs : List (Option String)
  attempted : List Candidate
  st : TrySt

/-- The per-step success log lines of the login flow (app.py lines 218-243). -/
def loginLogs : List String :=
  ["Opened affordablehousing.com", "Clicked homepage Sign In", "Entered email",
    "Clicked first Sign In button", "Entered password", "Clicked final Sign In button",
    "Login confirmed (dashboard)"]

/-- The listing page URL (app.py line 246). -/
def listingUrl : String :=
  "https://www.affordablehousing.com/v4/pages/Listing/Listing.aspx"

/-- The exception message of app.py line 198. -/
def chromedriverMissingMsg : String :=
  "Chromedriver binary not found. Set CHROMEDRIVER_PATH or install chromium-driver in the image."

/-- The exception message of app.py line 289. -/
def pollFailMsg : String :=
  "No listing cards or buttons found after JS polling"

/-- The exception message of app.py line 320. -/
def noBoostableMsg : String :=
  "No boostable buttons found to click"

/-- The three startup log lines (app.py lines 189-195). -/
def detectLogs (env : WorkerEnv) : List String :=
  ["Starting Selenium worker",
    "Detected chrome binary: " ++ orDefault env.chromeBin "<none>",
    "Detected chromedriver binary: " ++ orDefault env.chromedriverBin "<none>"]

/-- The `[JS POLL RESULT]` log line when polling found content (app.py line 282). -/
def pollResultFoundLine (n : Nat) : String :=
  "[JS POLL RESULT] found_context=(\x27main\x27, None) found_count=" ++ toString n

/-- The `[JS POLL RESULT]` log line when polling found nothing (app.py line 282). -/
def pollResultNoneLine : String :=
  "[JS POLL RESULT] found_context=None found_count=0"

/--
The body of the `try` block of `selenium_boost_worker` (app.py lines
188-346), translated branch for branch.  An `Except.error` carries the
raised exception's message along with the logs, screenshot and driver
state at the raise site; `Except.ok` carries `clicked`,
`clicked_addresses`, the attempted candidate list, and the final state.
-/
def selenium_try (env : WorkerEnv) (num_buttons : Nat) : Except ErrOut OkOut :=
  let logs1 := detectLogs env
  if pyTruthy env.chromedriverBin then
    match env.createErr with
    | some m => .error ⟨m, ⟨logs1, none, false⟩⟩
    | none =>
      match env.loginFail with
      | some p => .error ⟨p.2, ⟨logs1 ++ loginLogs.take p.1, none, true⟩⟩
      | none =>
        match env.navErr with
        | some m => .error ⟨m, ⟨logs1 ++ loginLogs, none, true⟩⟩
        | none =>
          let logs2 := logs1 ++ loginLogs ++ ["Navigated to " ++ listingUrl] ++
            ["Finished incremental scrolling (" ++ toString (scrollLoopCount env.heights) ++ " loops)"]
          let p := pollLoop env.polls
          match p.found with
          | none =>
            let logs3 := logs2 ++ p.logs ++ [pollResultNoneLine]
            match env.screenshotRes with
            | .ok s =>
              .error ⟨pollFailMsg,
                ⟨logs3 ++ ["No cards/buttons found - saved screenshot (base64)"], some s, true⟩⟩
            | .error _ =>
              .error ⟨pollFailMsg,
                ⟨logs3 ++ ["No cards/buttons found - screenshot failed"], none, true⟩⟩
          | some fc =>
            let logs3 := logs2 ++ p.logs ++ [pollResultFoundLine fc] ++
              ["Collected " ++ toString env.buttons.length ++ " button elements in main document (selenium)"]
            let f := filterLoop env.buttons 1
            let logs4 := logs3 ++ f.logs ++
              ["Total boostable detected: " ++ toString f.boostable.length]
            if f.boostable.isEmpty then
              match env.screenshotRes with
              | .ok s =>
                .error ⟨noBoostableMsg,
                  ⟨logs4 ++ ["No boostable buttons after filtering - saved screenshot (base64)"], some s, true⟩⟩
              | .error _ =>
                .error ⟨noBoostableMsg,
                  ⟨logs4 ++ ["No boostable buttons - screenshot failed"], none, true⟩⟩
            else
              let items := f.boostable.take (min num_buttons f.boostable.length)
              let c := clickLoop items 0
              .ok ⟨c.clicked, c.addrs, items, ⟨logs4 ++ c.logs, none, true⟩⟩
  else
    .error ⟨chromedriverMissingMsg, ⟨logs1, none, false⟩⟩

/--
Result of one full worker invocation: the returned `BoostResponse`
together with run observables — the candidates the click loop iterated
over, whether a driver session was ever created, and how many times the
`finally` block called `driver.quit()`.
-/
structure RunResult where
  resp : BoostResponse
  attempted : List Candidate
  driverCreated : Bool
  quitCalls : Nat

/--
`selenium_boost_worker` (app.py lines 182-373): run the `try` body, on an
exception run the `except` block (append the exception text and traceback
to the log, re-capture a screenshot when a driver session exists, and
return the failure response with `clicked_count=0` and an empty address
list), and account for the `finally` block's `driver.quit()` call.
`email`, `password`, `headless` and `wait_time` are threaded for signature
fidelity; their effects are folded into the environment's observations.
-/
def selenium_boost_worker (env : WorkerEnv) (email password : String) (num_buttons : Nat)
    (headless : Bool) (wait_time : Nat) : RunResult :=
  match selenium_try env num_buttons with
  | .ok o =>
    ⟨⟨true, o.clicked, o.addrs, o.st.logs, none, o.st.shot⟩, o.attempted, o.st.driver,
      if o.st.driver then 1 else 0⟩
  | .error e =>
    let logs1 := e.st.logs ++ ["Unhandled exception: " ++ e.msg, env.tb]
    let shotLogs :=
      if e.st.driver then
        match env.screenshotRes with
        | .ok s => (some s, logs1 ++ ["Captured error screenshot (base64)"])
        | .error _ => (e.st.shot, logs1)
      else (e.st.shot, logs1)
    ⟨⟨false, 0, [], shotLogs.2, some e.msg, shotLogs.1⟩, [], e.st.driver,
      if e.st.driver then 1 else 0⟩

/-- The `Eligible` list as the Target Resolver would build it from the buttons. -/
def eligList (env : WorkerEnv) : List Candidate :=
  (filterLoop env.buttons 1).boostable

/-- The first `min(requested, |Eligible|)` eligible candidates, in document order. -/
def takeElig (env : WorkerEnv) (num_buttons : Nat) : List Candidate :=
  (eligList env).take (min num_buttons (eligList env).length)

/-- The Chrome options argument list built at app.py lines 200-207. -/
def chromeOptionsArgs (headless : Bool) : List String :=
  (if headless then ["--headless=new"] else []) ++
    ["--no-sandbox", "--disable-dev-shm-usage", "--disable-gpu",
      "--window-size=1920,1080", "--lang=en-US"]

/-- The `binary_location` assignment at app.py lines 209-210. -/
def chromeBinaryLocation (chromeBin : Option String) : Option String :=
  if pyTruthy chromeBin then chromeBin else none

/--
Modelled from the spec (section 4.1), for refinement comparison only: an
options list performs "anti-automation fingerprint suppression (e.g.,
hiding the automation flag the page may detect)" iff some argument refers
to the automation flag (the `AutomationControlled` blink feature, the
`enable-automation` switch, or the automation extension).  The source
builds no such argument.
-/
def suppressesAutomationFingerprint (args : List String) : Bool :=
  args.any fun a =>
    strContains a "AutomationControlled" || strContains a "enable-automation" ||
      strContains a "useAutomationExtension"

/-- An address-resolution environment in which every strategy raises. -/
def addrObsAllErr : AddrObs :=
  { anc1 := Except.error (), anc2 := Except.error (), anc3 := Except.error (),
    prec := Except.error () }

/-- A concrete eligible button whose address resolves to `a`. -/
def btnBoost (a : String) : ButtonObs :=
  { jsText := some "Boost", getAttrClass := Except.ok (some "cmn--btn usage-boost-button"),
    addrObs := ⟨Except.ok a, Except.error (), Except.error (), Except.error ()⟩,
    scrollRes := Except.ok (), clickRes := Except.ok () }

/-- A concrete eligible button whose script click raises `"boom"`. -/
def btnClickFail (a : String) : ButtonObs :=
  { btnBoost a with clickRes := Except.error "boom" }

/-- A concrete button carrying the in-progress marker in its class attribute. -/
def btnMarked : ButtonObs :=
  { btnBoost "M" with getAttrClass := Except.ok (some "cmn--btn usage-boost-inprogress") }

/-- A concrete environment for a fully successful run with five eligible buttons. -/
def envBase : WorkerEnv :=
  { chromeBin := some "/usr/bin/chromium", chromedriverBin := some "/usr/bin/chromedriver",
    createErr := none, loginFail := none, navErr := none, heights := fun _ => 1000,
    polls := [(5, 5, 5)], screenshotRes := Except.ok "IMG",
    buttons := [btnBoost "A1", btnBoost "A2", btnBoost "A3", btnBoost "A4", btnBoost "A5"],
    tb := "Traceback" }

/-- A concrete environment whose second eligible button fails to click. -/
def envClickFail : WorkerEnv :=
  { envBase with buttons := [btnBoost "X", btnClickFail "Y", btnBoost "Z"] }

/-- A concrete environment whose existence polling only ever sees zero counts. -/
def envPollZero : WorkerEnv :=
  { envBase with polls := [(0, 0, 0), (0, 0, 0), (0, 0, 0)] }

/-- A concrete environment with no chromedriver binary resolved. -/
def envNoDriver : WorkerEnv :=
  { envBase with chromedriverBin := none }

/-! ## Helper lemmas -/

/-- The click loop increments `clicked` exactly when it appends an address. -/
theorem clickLoop_clicked_eq_length : ∀ (items : List Candidate) (i : Nat),
    (clickLoop items i).clicked = (clickLoop items i).addrs.length
  | [], _ => rfl
  | t :: rest, i => by
    have ih := clickLoop_clicked_eq_length rest (i + 1)
    simp only [clickLoop]
    cases hsr : t.2.1.scrollRes with
    | error ce => simpa using ih
    | ok u =>
      cases hcr : t.2.1.clickRes with
      | error ce => simpa using ih
      | ok u => simpa using ih

/-- The click loop appends exactly the addresses of the fully successful attempts. -/
theorem clickLoop_addrs_eq_filter : ∀ (items : List Candidate) (i : Nat),
    (clickLoop items i).addrs = (items.filter attemptOk).map (fun t => t.1)
  | [], _ => rfl
  | t :: rest, i => by
    have ih := clickLoop_addrs_eq_filter rest (i + 1)
    simp only [clickLoop, List.filter_cons]
    cases hsr : t.2.1.scrollRes with
    | error ce => simpa [attemptOk, attemptErr, hsr] using ih
    | ok u =>
      cases hcr : t.2.1.clickRes with
      | error ce => simpa [attemptOk, attemptErr, hsr, hcr] using ih
      | ok u => simpa [attemptOk, attemptErr, hsr, hcr] using ih

/-- A failed attempt at position `j` leaves its error line in the click-loop log. -/
theorem clickLoop_err_log_mem : ∀ (items : List Candidate) (i j : Nat) (t : Candidate)
    (ce : String), items.get? j = some t → attemptErr t.2.1 = some ce →
    clickErrLine (i + j) t.1 ce ∈ (clickLoop items i).logs
  | [], _, j, _, _, ht, _ => by simp at ht
  | hd :: rest, i, 0, t, ce, ht, hf => by
    simp only [List.get?] at ht
    cases ht
    simp only [clickLoop, Nat.add_zero]
    cases hsr : hd.2.1.scrollRes with
    | error e =>
      rw [attemptErr, hsr] at hf
      cases hf
      simp [hsr]
    | ok u =>
      cases hcr : hd.2.1.clickRes with
      | error e =>
        rw [attemptErr, hsr] at hf
        rw [hcr] at hf
        cases hf
        simp [hsr, hcr]
      | ok u =>
        rw [attemptErr, hsr] at hf
        rw [hcr] at hf
        cases hf
  | hd :: rest, i, j + 1, t, ce, ht, hf => by
    simp only [List.get?] at ht
    have ih := clickLoop_err_log_mem rest (i + 1) j t ce ht hf
    have harith : i + (j + 1) = (i + 1) + j := by omega
    rw [harith]
    simp only [clickLoop]
    cases hsr : hd.2.1.scrollRes with
    | error e => simpa using Or.inr ih
    | ok u =>
      cases hcr : hd.2.1.clickRes with
      | error e => simpa using Or.inr ih
      | ok u => simpa using Or.inr ih

/-- If every poll observation is all-zero, the polling loop finds nothing. -/
theorem pollLoop_found_none : ∀ (ps : List (Nat × Nat × Nat)),
    (∀ t ∈ ps, t.1 = 0 ∧ t.2.1 = 0 ∧ t.2.2 = 0) → (pollLoop ps).found = none
  | [], _ => rfl
  | t :: rest, h => by
    have h0 := h t (List.mem_cons_self t rest)
    have ih := pollLoop_found_none rest (fun u hu => h u (List.mem_cons_of_mem t hu))
    simp only [pollLoop, h0.1, h0.2.1, h0.2.2]
    simpa using ih

/-- Mapping a function over both lists preserves the prefix relation. -/
theorem isPrefixOf_map (f : Char → Char) : ∀ (m l : List Char),
    m.isPrefixOf l = true → (m.map f).isPrefixOf (l.map f) = true
  | [], _, _ => by simp [List.isPrefixOf]
  | a :: m, [], h => by simp [List.isPrefixOf] at h
  | a :: m, b :: l, h => by
    simp only [List.isPrefixOf, Bool.and_eq_true, beq_iff_eq] at h
    simp only [List.map_cons, List.isPrefixOf, Bool.and_eq_true, beq_iff_eq]
    exact ⟨by rw [h.1], isPrefixOf_map f m l h.2⟩

/-- Mapping a function over both lists preserves substring containment. -/
theorem listContainsSub_map (f : Char → Char) : ∀ (l m : List Char),
    listContainsSub l m = true → listContainsSub (l.map f) (m.map f) = true
  | [], m, h => by
    simp only [listContainsSub, List.isEmpty_iff] at h
    subst h
    simp [listContainsSub]
  | c :: t, m, h => by
    simp only [listContainsSub, Bool.or_eq_true] at h
    simp only [List.map_cons, listContainsSub, Bool.or_eq_true]
    rcases h with h | h
    · exact Or.inl (by simpa using isPrefixOf_map f m (c :: t) h)
    · exact Or.inr (listContainsSub_map f t m h)

/-- Lowercasing the haystack preserves containment of an already-lowercase needle. -/
theorem strContains_pyLower (s m : String) (hm : pyLower m = m)
    (h : strContains s m = true) : strContains (pyLower s) m = true := by
  have h2 := listContainsSub_map Char.toLower s.data m.data h
  have hmd : m.data.map Char.toLower = m.data := congrArg String.data hm
  rw [hmd] at h2
  exact h2

/-- The in-progress marker string is already lowercase. -/
theorem marker_lower : pyLower "usage-boost-inprogress" = "usage-boost-inprogress" := by decide

/--
Inversion of the normal-return path of the worker body: a successful run's
payload comes from the click loop over the first `min(requested, |Eligible|)`
eligible candidates, a live driver session exists, and the eligible list is
non-empty.
-/
theorem selenium_try_ok_inv (env : WorkerEnv) (n : Nat) (o : OkOut)
    (h : selenium_try env n = Except.ok o) :
    o.attempted = takeElig env n ∧
    o.clicked = (clickLoop o.attempted 0).clicked ∧
    o.addrs = (clickLoop o.attempted 0).addrs ∧
    o.st.driver = true ∧
    (eligList env).isEmpty = false ∧
    ∃ pre, o.st.logs = pre ++ (clickLoop o.attempted 0).logs := by
  by_cases h1 : pyTruthy env.chromedriverBin = true
  · cases h2 : env.createErr with
    | some m => simp [selenium_try, h1, h2] at h
    | none =>
      cases h3 : env.loginFail with
      | some p => simp [selenium_try, h1, h2, h3] at h
      | none =>
        cases h4 : env.navErr with
        | some m => simp [selenium_try, h1, h2, h3, h4] at h
        | none =>
          cases h5 : (pollLoop env.polls).found with
          | none =>
            cases h6 : env.screenshotRes <;>
              simp [selenium_try, h1, h2, h3, h4, h5, h6] at h
          | some fc =>
            by_cases h7 : (filterLoop env.buttons 1).boostable.isEmpty = true
            · cases h8 : env.screenshotRes <;>
                simp [selenium_try, h1, h2, h3, h4, h5, h7, h8] at h
            · simp only [selenium_try, h1, h2, h3, h4, h5, h7, if_true, if_false,
                Bool.not_eq_true] at h
              cases h
              refine ⟨rfl, rfl, rfl, rfl, ?_, ⟨_, rfl⟩⟩
              simpa [eligList] using h7
  · simp [selenium_try, h1] at h

/--
Characterization of the driver flag on every exit path: a session exists
iff the chromedriver binary resolved and driver creation did not raise.
-/
theorem selenium_try_driver_eq (env : WorkerEnv) (n : Nat) :
    (match selenium_try env n with
      | .ok o => o.st.driver
      | .error e => e.st.driver) =
      (pyTruthy env.chromedriverBin && env.createErr.isNone) := by
  by_cases h1 : pyTruthy env.chromedriverBin = true
  · cases h2 : env.createErr with
    | some m => simp [selenium_try, h1, h2]
    | none =>
      cases h3 : env.loginFail with
      | some p => simp [selenium_try, h1, h2, h3]
      | none =>
        cases h4 : env.navErr with
        | some m => simp [selenium_try, h1, h2, h3, h4]
        | none =>
          cases h5 : (pollLoop env.polls).found with
          | none =>
            cases h6 : env.screenshotRes <;>
              simp [selenium_try, h1, h2, h3, h4, h5, h6]
          | some fc =>
            by_cases h7 : (filterLoop env.buttons 1).boostable.isEmpty = true
            · cases h8 : env.screenshotRes <;>
                simp [selenium_try, h1, h2, h3, h4, h5, h7, h8]
            · simp [selenium_try, h1, h2, h3, h4, h5, h7]
  · have h1f : pyTruthy env.chromedriverBin = false := by simpa using h1
    simp [selenium_try, h1f]

/--
Forward reduction: when the binaries resolve, driver creation, login and
navigation succeed, polling finds content and the eligible list is
non-empty, the worker body returns normally.
-/
theorem selenium_try_reach (env : WorkerEnv) (n : Nat)
    (h1 : pyTruthy env.chromedriverBin = true) (h2 : env.createErr = none)
    (h3 : env.loginFail = none) (h4 : env.navErr = none)
    (fc : Nat) (h5 : (pollLoop env.polls).found = some fc)
    (h6 : (eligList env).isEmpty = false) :
    ∃ o, selenium_try env n = Except.ok o := by
  rw [eligList] at h6
  simp [selenium_try, h1, h2, h3, h4, h5, h6]

/-! ## Claim theorems -/

/--
C1: for every run of the boost worker, the returned report satisfies
`clicked_count = clicked_addresses.length`, both when the run ends with
`success = true` and when it ends with `success = false`.
-/
theorem c1_clicked_count_eq_len_addresses (env : WorkerEnv) (email password : String)
    (num_buttons : Nat) (headless : Bool) (wait_time : Nat) :
    (selenium_boost_worker env email password num_buttons headless wait_time).resp.clicked_count =
      (selenium_boost_worker env email password num_buttons headless
        wait_time).resp.clicked_addresses.length := by
  cases hm : selenium_try env num_buttons with
  | error e => simp [selenium_boost_worker, hm]
  | ok o =>
    obtain ⟨-, hcl, had, -, -, -⟩ := selenium_try_ok_inv env num_buttons o hm
    simp only [selenium_boost_worker, hm]
    rw [hcl, had]
    exact clickLoop_clicked_eq_length o.attempted 0

/--
C2: for every run of the boost worker, the returned `clicked_count` is at
most `min(requestedCount, |Eligible|)`, where Eligible is the filtered
boostable list the Target Resolver builds from the candidate buttons.
-/
theorem c2_clicked_le_min_requested_eligible (env : WorkerEnv) (email password : String)
    (num_buttons : Nat) (headless : Bool) (wait_time : Nat) :
    (selenium_boost_worker env email password num_buttons headless wait_time).resp.clicked_count ≤
      min num_buttons (eligList env).length := by
  cases hm : selenium_try env num_buttons with
  | error e => simp [selenium_boost_worker, hm]
  | ok o =>
    obtain ⟨hat, hcl, -, -, -, -⟩ := selenium_try_ok_inv env num_buttons o hm
    simp only [selenium_boost_worker, hm]
    have h1 : o.clicked = ((o.attempted.filter attemptOk).map (fun t => t.1)).length := by
      rw [hcl, clickLoop_clicked_eq_length, clickLoop_addrs_eq_filter]
    have h2 : (o.attempted.filter attemptOk).length ≤ o.attempted.length :=
      List.length_filter_le _ _
    have h3 : o.attempted.length = min (min num_buttons (eligList env).length)
        (eligList env).length := by
      rw [hat, takeElig, List.length_take]
    rw [h1, List.length_map]
    omega

/--
C8: on every exit path of the boost worker a created browser session is
released by the `finally` block exactly once and no release is attempted
when no session was created; a session is created exactly when the
chromedriver binary resolved and driver instantiation did not raise
(in particular a failure on the very first login step still releases it).
-/
theorem c8_session_released_exactly_once (env : WorkerEnv) (email password : String)
    (num_buttons : Nat) (headless : Bool) (wait_time : Nat) :
    (selenium_boost_worker env email password num_buttons headless wait_time).quitCalls =
      (if (selenium_boost_worker env email password num_buttons headless
        wait_time).driverCreated then 1 else 0) ∧
    (selenium_boost_worker env email password num_buttons headless wait_time).driverCreated =
      (pyTruthy env.chromedriverBin && env.createErr.isNone) := by
  have hd := selenium_try_driver_eq env num_buttons
  cases hm : selenium_try env num_buttons with
  | error e =>
    rw [hm] at hd
    refine ⟨by simp [selenium_boost_worker, hm], ?_⟩
    simp only [selenium_boost_worker, hm]
    exact hd
  | ok o =>
    rw [hm] at hd
    refine ⟨by simp [selenium_boost_worker, hm], ?_⟩
    simp only [selenium_boost_worker, hm]
    exact hd

/--
C10: every report with `success = false` has `clicked_count = 0` and an
empty `clicked_addresses` list — a failed run never reports partial click
results.
-/
theorem c10_failed_run_reports_no_clicks (env : WorkerEnv) (email password : String)
    (num_buttons : Nat) (headless : Bool) (wait_time : Nat)
    (hfail : (selenium_boost_worker env email password num_buttons headless
      wait_time).resp.success = false) :
    (selenium_boost_worker env email password num_buttons headless
      wait_time).resp.clicked_count = 0 ∧
    (selenium_boost_worker env email password num_buttons headless
      wait_time).resp.clicked_addresses = [] := by
  cases hm : selenium_try env num_buttons with
  | error e => simp [selenium_boost_worker, hm]
  | ok o => simp [selenium_boost_worker, hm] at hfail

/-- Witness for C10: a run with no chromedriver binary fails and reports zero clicks. -/
theorem c10_witness :
    ((selenium_boost_worker envNoDriver "e" "p" 1 true 25).resp.success = false) ∧
    ((selenium_boost_worker envNoDriver "e" "p" 1 true 25).resp.clicked_count = 0 ∧
      (selenium_boost_worker envNoDriver "e" "p" 1 true 25).resp.clicked_addresses = []) :=
  ⟨rfl, c10_failed_run_reports_no_clicks envNoDriver "e" "p" 1 true 25 rfl⟩

/--
C3: whenever the run reaches the Action Executor (binaries resolved,
driver created, login and navigation succeeded, polling found content) and
the Eligible list is non-empty, the executor attempts exactly
`min(requestedCount, |Eligible|)` clicks, and the candidates attempted are
exactly the first `min(requestedCount, |Eligible|)` Eligible elements in
document order.
-/
theorem c3_attempts_exactly_first_min (env : WorkerEnv) (email password : String)
    (num_buttons : Nat) (headless : Bool) (wait_time : Nat)
    (h1 : pyTruthy env.chromedriverBin = true) (h2 : env.createErr = none)
    (h3 : env.loginFail = none) (h4 : env.navErr = none)
    (h5 : (pollLoop env.polls).found.isSome = true)
    (h6 : (eligList env).isEmpty = false) :
    (selenium_boost_worker env email password num_buttons headless wait_time).attempted =
      takeElig env num_buttons ∧
    (selenium_boost_worker env email password num_buttons headless
      wait_time).attempted.length = min num_buttons (eligList env).length := by
  obtain ⟨fc, hfc⟩ := Option.isSome_iff_exists.mp h5
  obtain ⟨o, hm⟩ := selenium_try_reach env num_buttons h1 h2 h3 h4 fc hfc h6
  obtain ⟨hat, -, -, -, -, -⟩ := selenium_try_ok_inv env num_buttons o hm
  constructor
  · simp only [selenium_boost_worker, hm]
    exact hat
  · simp only [selenium_boost_worker, hm]
    rw [hat, takeElig, List.length_take]
    omega

/-- Witness for C3: five eligible candidates and `requestedCount = 3`. -/
theorem c3_witness :
    (pyTruthy envBase.chromedriverBin = true) ∧ (envBase.createErr = none) ∧
    (envBase.loginFail = none) ∧ (envBase.navErr = none) ∧
    ((pollLoop envBase.polls).found.isSome = true) ∧
    ((eligList envBase).isEmpty = false) ∧
    ((selenium_boost_worker envBase "e" "p" 3 true 25).attempted = takeElig envBase 3 ∧
      (selenium_boost_worker envBase "e" "p" 3 true 25).attempted.length =
        min 3 (eligList envBase).length) :=
  ⟨rfl, rfl, rfl, rfl, rfl, rfl,
    c3_attempts_exactly_first_min envBase "e" "p" 3 true 25 rfl rfl rfl rfl rfl rfl⟩

/--
C4: when a run reaches the Action Executor and the attempt at position `i`
fails (one of its script calls raises), the failure is caught and logged,
the failed candidate's address is not appended (the address list is exactly
the addresses of the fully successful attempts, in order), the loop
continues, and the run still returns `success = true`.
-/
theorem c4_click_failure_isolated (env : WorkerEnv) (email password : String)
    (num_buttons : Nat) (headless : Bool) (wait_time : Nat)
    (h1 : pyTruthy env.chromedriverBin = true) (h2 : env.createErr = none)
    (h3 : env.loginFail = none) (h4 : env.navErr = none)
    (h5 : (pollLoop env.polls).found.isSome = true)
    (h6 : (eligList env).isEmpty = false)
    (i : Nat) (t : Candidate) (ce : String)
    (ht : (takeElig env num_buttons).get? i = some t)
    (hf : attemptErr t.2.1 = some ce) :
    (selenium_boost_worker env email password num_buttons headless
      wait_time).resp.success = true ∧
    (selenium_boost_worker env email password num_buttons headless
      wait_time).resp.clicked_count =
      ((takeElig env num_buttons).filter attemptOk).length ∧
    (selenium_boost_worker env email password num_buttons headless
      wait_time).resp.clicked_addresses =
      ((takeElig env num_buttons).filter attemptOk).map (fun x => x.1) ∧
    clickErrLine i t.1 ce ∈
      (selenium_boost_worker env email password num_buttons headless
        wait_time).resp.debug_logs := by
  obtain ⟨fc, hfc⟩ := Option.isSome_iff_exists.mp h5
  obtain ⟨o, hm⟩ := selenium_try_reach env num_buttons h1 h2 h3 h4 fc hfc h6
  obtain ⟨hat, hcl, had, -, -, pre, hlogs⟩ := selenium_try_ok_inv env num_buttons o hm
  refine ⟨?_, ?_, ?_, ?_⟩
  · simp [selenium_boost_worker, hm]
  · simp only [selenium_boost_worker, hm]
    rw [hcl, clickLoop_clicked_eq_length, clickLoop_addrs_eq_filter, hat, List.length_map]
  · simp only [selenium_boost_worker, hm]
    rw [had, clickLoop_addrs_eq_filter, hat]
  · simp only [selenium_boost_worker, hm]
    rw [hlogs]
    have hmem := clickLoop_err_log_mem o.attempted 0 i t ce (by rw [hat]; exact ht) hf
    rw [Nat.zero_add] at hmem
    exact List.mem_append.mpr (Or.inr hmem)

/--
Witness for C4: Eligible = [X, Y, Z], `requestedCount = 3`, the click on Y
raises `"boom"`; the run succeeds with addresses [X, Z] and the log holds
the error entry for Y.
-/
theorem c4_witness :
    (pyTruthy envClickFail.chromedriverBin = true) ∧ (envClickFail.createErr = none) ∧
    (envClickFail.loginFail = none) ∧ (envClickFail.navErr = none) ∧
    ((pollLoop envClickFail.polls).found.isSome = true) ∧
    ((eligList envClickFail).isEmpty = false) ∧
    ((takeElig envClickFail 3).get? 1 = some (some "Y", btnClickFail "Y", "boost")) ∧
    (attemptErr (btnClickFail "Y") = some "boom") ∧
    ((selenium_boost_worker envClickFail "e" "p" 3 true 25).resp.success = true ∧
      (selenium_boost_worker envClickFail "e" "p" 3 true 25).resp.clicked_count =
        ((takeElig envClickFail 3).filter attemptOk).length ∧
      (selenium_boost_worker envClickFail "e" "p" 3 true 25).resp.clicked_addresses =
        ((takeElig envClickFail 3).filter attemptOk).map (fun x => x.1) ∧
      clickErrLine 1 (some "Y", btnClickFail "Y", "boost").1 "boom" ∈
        (selenium_boost_worker envClickFail "e" "p" 3 true 25).resp.debug_logs) :=
  ⟨rfl, rfl, rfl, rfl, rfl, rfl, by decide, rfl,
    c4_click_failure_isolated envClickFail "e" "p" 3 true 25 rfl rfl rfl rfl rfl rfl
      1 (some "Y", btnClickFail "Y", "boost") "boom" (by decide) rfl⟩

/--
C5: when the run reaches the polling loop and every poll observation is
zero across all three selectors, the run aborts fatally with
`success = false` and `error` set to the human-readable summary, and the
diagnostic screenshot field is present whenever the capture from the live
driver session returns an image.
-/
theorem c5_poll_timeout_fatal (env : WorkerEnv) (email password : String)
    (num_buttons : Nat) (headless : Bool) (wait_time : Nat)
    (h1 : pyTruthy env.chromedriverBin = true) (h2 : env.createErr = none)
    (h3 : env.loginFail = none) (h4 : env.navErr = none)
    (hz : ∀ t ∈ env.polls, t.1 = 0 ∧ t.2.1 = 0 ∧ t.2.2 = 0) :
    (selenium_boost_worker env email password num_buttons headless
      wait_time).resp.success = false ∧
    (selenium_boost_worker env email password num_buttons headless
      wait_time).resp.error = some pollFailMsg ∧
    (∀ s, env.screenshotRes = Except.ok s →
      (selenium_boost_worker env email password num_buttons headless
        wait_time).resp.screenshot_base64 = some s) := by
  have hpf := pollLoop_found_none env.polls hz
  cases hss : env.screenshotRes with
  | ok s =>
    refine ⟨?_, ?_, ?_⟩
    · simp [selenium_boost_worker, selenium_try, h1, h2, h3, h4, hpf, hss]
    · simp [selenium_boost_worker, selenium_try, h1, h2, h3, h4, hpf, hss]
    · intro s' hs'
      cases hs'
      simp [selenium_boost_worker, selenium_try, h1, h2, h3, h4, hpf, hss]
  | error u =>
    refine ⟨?_, ?_, ?_⟩
    · simp [selenium_boost_worker, selenium_try, h1, h2, h3, h4, hpf, hss]
    · simp [selenium_boost_worker, selenium_try, h1, h2, h3, h4, hpf, hss]
    · intro s' hs'
      exact absurd hs' (by simp)

/--
Witness for C5: a run whose three poll observations are all zero fails
with the polling error message and carries the captured screenshot.
-/
theorem c5_witness :
    (pyTruthy envPollZero.chromedriverBin = true) ∧ (envPollZero.createErr = none) ∧
    (envPollZero.loginFail = none) ∧ (envPollZero.navErr = none) ∧
    (∀ t ∈ envPollZero.polls, t.1 = 0 ∧ t.2.1 = 0 ∧ t.2.2 = 0) ∧
    ((selenium_boost_worker envPollZero "e" "p" 1 true 25).resp.success = false ∧
      (selenium_boost_worker envPollZero "e" "p" 1 true 25).resp.error = some pollFailMsg ∧
      (∀ s, envPollZero.screenshotRes = Except.ok s →
        (selenium_boost_worker envPollZero "e" "p" 1 true 25).resp.screenshot_base64 =
          some s)) :=
  ⟨rfl, rfl, rfl, rfl, by decide,
    c5_poll_timeout_fatal envPollZero "e" "p" 1 true 25 rfl rfl rfl rfl (by decide)⟩

/--
C6: a candidate button whose class-attribute string contains the
in-progress marker `usage-boost-inprogress` never appears in the
`boostable` list built by the filter loop, regardless of its visible text
(the classifier lowercases the class string, which preserves the
all-lowercase marker).
-/
theorem c6_inprogress_marker_excluded (bs : List ButtonObs) (idx : Nat) (b : ButtonObs)
    (cls : String) (hattr : b.getAttrClass = Except.ok (some cls))
    (hmark : strContains cls "usage-boost-inprogress" = true) :
    ∀ t ∈ (filterLoop bs idx).boostable, t.2.1 ≠ b := by
  induction bs generalizing idx with
  | nil =>
    intro t ht
    simp [filterLoop] at ht
  | cons a rest ih =>
    intro t ht
    simp only [filterLoop] at ht
    cases hac : a.getAttrClass with
    | error e =>
      rw [hac] at ht
      exact ih (idx + 1) t ht
    | ok co =>
      rw [hac] at ht
      dsimp only at ht
      by_cases helig : isEligible (normText a) (pyLower (orDefault co "")) = true
      · rw [if_pos helig] at ht
        rcases List.mem_cons.mp ht with hh | hh
        · subst hh
          intro hab
          simp only at hab
          have hga : a.getAttrClass = Except.ok (some cls) := by rw [hab]; exact hattr
          have hco : some cls = co := Except.ok.inj (hga.symm.trans hac)
          rw [← hco] at helig
          have hemp : (cls == "") = false := by
            cases hcb : cls == "" with
            | false => rfl
            | true =>
              exfalso
              have hcls : cls = "" := by simpa using hcb
              rw [hcls] at hmark
              exact absurd hmark (by decide)
          have hod : orDefault (some cls) "" = cls := by simp [orDefault, hemp]
          rw [hod] at helig
          have hflag : inProgressFlag (normText a) (pyLower cls) = true := by
            simp only [inProgressFlag, strContains_pyLower cls _ marker_lower hmark,
              Bool.true_or]
          rw [isEligible, hflag] at helig
          simp at helig
        · exact ih (idx + 1) t hh
      · rw [if_neg helig] at ht
        exact ih (idx + 1) t ht

/-- Witness for C6: a button whose class string carries the marker is excluded. -/
theorem c6_witness :
    (btnMarked.getAttrClass = Except.ok (some "cmn--btn usage-boost-inprogress")) ∧
    (strContains "cmn--btn usage-boost-inprogress" "usage-boost-inprogress" = true) ∧
    (∀ t ∈ (filterLoop [btnMarked] 1).boostable, t.2.1 ≠ btnMarked) :=
  ⟨rfl, by decide,
    c6_inprogress_marker_excluded [btnMarked] 1 btnMarked
      "cmn--btn usage-boost-inprogress" rfl (by decide)⟩

/--
C7: address resolution is total — when every ancestor lookup and the
preceding-element lookup raise (no matching ancestor, no preceding address
element), `find_address_for_button` returns `none`; in the source every
strategy is wrapped in `try/except`, so no exception reaches the caller.
-/
theorem c7_address_resolution_absent_never_raises (a : AddrObs)
    (h1 : a.anc1 = Except.error ()) (h2 : a.anc2 = Except.error ())
    (h3 : a.anc3 = Except.error ()) (h4 : a.prec = Except.error ()) :
    find_address_for_button a = none := by
  simp [find_address_for_button, tryStrategy, h1, h2, h3, h4]

/-- Witness for C7: the all-raising address environment resolves to `none`. -/
theorem c7_witness :
    (addrObsAllErr.anc1 = Except.error ()) ∧ (addrObsAllErr.anc2 = Except.error ()) ∧
    (addrObsAllErr.anc3 = Except.error ()) ∧ (addrObsAllErr.prec = Except.error ()) ∧
    find_address_for_button addrObsAllErr = none :=
  ⟨rfl, rfl, rfl, rfl,
    c7_address_resolution_absent_never_raises addrObsAllErr rfl rfl rfl rfl⟩

/--
C9 counterexample: the claim asserts the session options include
anti-automation fingerprint suppression; the options list the source
builds (headless or not) contains no argument referring to the automation
flag, so the claim fails on the code.
-/
theorem c9_counterexample :
    suppressesAutomationFingerprint (chromeOptionsArgs true) = false ∧
    suppressesAutomationFingerprint (chromeOptionsArgs false) = false := by
  decide

/--
C9 amended: every session is acquired with headless mode (when requested),
sandboxing disabled, shared-memory and GPU usage disabled, a 1920x1080
window, the en-US locale and the optional detected browser-binary path —
but with no anti-automation fingerprint suppression.
-/
theorem c9_amended_session_config :
    chromeOptionsArgs true = ["--headless=new", "--no-sandbox", "--disable-dev-shm-usage",
      "--disable-gpu", "--window-size=1920,1080", "--lang=en-US"] ∧
    chromeOptionsArgs false = ["--no-sandbox", "--disable-dev-shm-usage", "--disable-gpu",
      "--window-size=1920,1080", "--lang=en-US"] ∧
    chromeBinaryLocation (some "/usr/bin/chromium") = some "/usr/bin/chromium" ∧
    chromeBinaryLocation none = none ∧
    suppressesAutomationFingerprint (chromeOptionsArgs true) = false := by
  decide

end Boost
